import Mathlib

/-!
Verification development for the WBS botnet manager
(`src/botnet.py`, `src/botcmds.py`).

The Python code is shallowly embedded: each relevant Python function is
translated into an executable Lean definition over an explicit manager
state (`BotState`) and an explicit trace of observable effects (`Ev`):
writes to peer connections, queue puts, log lines, connection closes.
Python exceptions are modelled with `Option PyErr` / `Except PyErr`.
-/

namespace WBS

instance {ε α : Type} [DecidableEq ε] [DecidableEq α] :
    DecidableEq (Except ε α) := fun x y =>
  match x, y with
  | .ok a, .ok b =>
    if h : a = b then .isTrue (h ▸ rfl)
    else .isFalse (fun hh => by cases hh; exact h rfl)
  | .error a, .error b =>
    if h : a = b then .isTrue (h ▸ rfl)
    else .isFalse (fun hh => by cases hh; exact h rfl)
  | .ok _, .error _ => .isFalse (fun hh => by cases hh)
  | .error _, .ok _ => .isFalse (fun hh => by cases hh)

/-- Python exception values that can arise in the embedded code. -/
inductive PyErr where
  | nameError
  | attributeError
  | keyError
  | valueError
  | indexError
  | jsonDecodeError
  deriving Repr, DecidableEq

/-- Drop leading whitespace from a character list. -/
def dropLeadWs (l : List Char) : List Char := l.dropWhile Char.isWhitespace

/-- Strip whitespace from both ends of a character list. -/
def trimL (l : List Char) : List Char :=
  (dropLeadWs (dropLeadWs l.reverse).reverse)

/-- Python `str.strip()` (whitespace strip on both ends). -/
def pyStrip (s : String) : String := String.mk (trimL s.data)

/-- Does the character list `s` start with the character list `pre`? -/
def pyStartsWithL : List Char → List Char → Bool
  | [], _ => true
  | _ :: _, [] => false
  | a :: as, b :: bs => a == b && pyStartsWithL as bs

/-- Python `s.startswith(pre)`. -/
def pyStartsWith (s pre : String) : Bool := pyStartsWithL pre.data s.data

/-- Substring containment, Python `needle in haystack`. -/
def containsSub : List Char → List Char → Bool
  | [], n => n.isEmpty
  | c :: rest, n => pyStartsWithL n (c :: rest) || containsSub rest n

/-- Python `needle in haystack` on strings. -/
def pyContains (haystack needle : String) : Bool :=
  containsSub haystack.data needle.data

/-- Accumulator-style whitespace splitter (tokens in order, current token
reversed in the accumulator). -/
def splitWsAux : List Char → List Char → List String
  | [], cur => if cur.isEmpty then [] else [String.mk cur.reverse]
  | c :: rest, cur =>
    if c.isWhitespace then
      if cur.isEmpty then splitWsAux rest []
      else String.mk cur.reverse :: splitWsAux rest []
    else splitWsAux rest (c :: cur)

/-- Python `str.split()` with no arguments: split on whitespace runs,
dropping empty pieces. -/
def pySplitWs (s : String) : List String := splitWsAux s.data []

/-- Python `str.split(maxsplit=1)`: first whitespace-delimited token, then
the remainder with the separating whitespace run removed; an empty
remainder is dropped, an all-whitespace string gives `[]`. -/
def pySplitWsMax1 (s : String) : List String :=
  let l := dropLeadWs s.data
  match l with
  | [] => []
  | _ =>
    let tok := l.takeWhile (fun c => !c.isWhitespace)
    let rest := dropLeadWs (l.dropWhile (fun c => !c.isWhitespace))
    match rest with
    | [] => [String.mk tok]
    | _ => [String.mk tok, String.mk rest]

/-- Split a character list at every occurrence of a separator character
(Python `str.split(sep)` for a one-character separator, which is the only
separator shape the botnet code uses apart from `'='`). -/
def splitCharAux (sep : Char) : List Char → List Char → List String
  | [], cur => [String.mk cur.reverse]
  | c :: rest, cur =>
    if c == sep then String.mk cur.reverse :: splitCharAux sep rest []
    else splitCharAux sep rest (c :: cur)

/-- Python `str.split(sep)` for a one-character separator. -/
def pySplitChar (s : String) (sep : Char) : List String :=
  splitCharAux sep s.data []

/-- Python `str.split(sep, 1)`: at most one split, at the first occurrence
of the (one-character) separator. -/
def pySplitOnMax1 (s : String) (sep : Char) : List String :=
  match pySplitChar s sep with
  | [] => []
  | [a] => [a]
  | a :: rest => [a, String.intercalate (String.mk [sep]) rest]

/-- Python `str.split(sep, 2)`: at most two splits. -/
def pySplitOnMax2 (s : String) (sep : Char) : List String :=
  match pySplitChar s sep with
  | [] => []
  | [a] => [a]
  | [a, b] => [a, b]
  | a :: b :: rest => [a, b, String.intercalate (String.mk [sep]) rest]

/-- Decimal digits to a natural number (none on a non-digit). -/
def natOfDigitsAux : List Char → Nat → Option Nat
  | [], acc => some acc
  | c :: rest, acc =>
    if c.isDigit then natOfDigitsAux rest (acc * 10 + (c.toNat - 48))
    else none

/-- Decimal digit string to a natural number (at least one digit). -/
def natOfDigits (l : List Char) : Option Nat :=
  if l.isEmpty then none else natOfDigitsAux l 0

/-- Python `int(s)` on a string: strip whitespace and parse a (signed)
decimal integer, raising `ValueError` otherwise.  (CPython extras such as
underscores in literals are not needed by any input considered here.) -/
def pyInt (s : String) : Except PyErr Int :=
  match trimL s.data with
  | '-' :: ds =>
    match natOfDigits ds with
    | some n => .ok (-(n : Int))
    | none => .error .valueError
  | '+' :: ds =>
    match natOfDigits ds with
    | some n => .ok (n : Int)
    | none => .error .valueError
  | ds =>
    match natOfDigits ds with
    | some n => .ok (n : Int)
    | none => .error .valueError

/-- Python truthiness of an `Optional[str]`: `None` and the empty string
are falsy. -/
def pyTruthy (o : Option String) : Bool :=
  match o with
  | none => false
  | some s => s != ""

/-- Dict lookup on an association list (Python `d.get(k)` / `d[k]`). -/
def dlookup {α : Type} (m : List (String × α)) (k : String) : Option α :=
  (m.find? (fun p => p.1 == k)).map (fun p => p.2)

/-- Dict update `d[k] = v`: replace in place if the key exists, else
append (Python dicts preserve insertion order). -/
def dinsert {α : Type} (m : List (String × α)) (k : String) (v : α) :
    List (String × α) :=
  if (dlookup m k).isSome then
    m.map (fun p => if p.1 == k then (k, v) else p)
  else
    m ++ [(k, v)]

/-- Dict deletion `del d[k]` (for well-formed dicts, keys occur at most
once, so filtering all occurrences coincides with deleting the entry). -/
def ddel {α : Type} (m : List (String × α)) (k : String) : List (String × α) :=
  m.filter (fun p => p.1 != k)

/-- The opening-brace character, written by code point. -/
def lbraceChar : Char := Char.ofNat 123

/-- The closing-brace character, written by code point. -/
def rbraceChar : Char := Char.ofNat 125

/-- JSON whitespace. -/
def jsonWsChar (c : Char) : Bool := c = ' ' || c = '\t' || c = '\n' || c = '\r'

/-- Skip JSON whitespace. -/
def skipJsonWs (l : List Char) : List Char := l.dropWhile jsonWsChar

/-- Parse one double-quoted JSON string literal (no escape sequences; the
inputs exercised by the code under verification need none). -/
def parseJStr : List Char → Option (String × List Char)
  | c :: rest =>
    if c = '"' then
      let content := rest.takeWhile (fun d => d != '"')
      match rest.dropWhile (fun d => d != '"') with
      | q :: r => if q = '"' then some (String.mk content, r) else none
      | [] => none
    else none
  | [] => none

/-- Parse the `"k": "v"` pairs of a JSON object body up to and including
the closing brace, fuelled by the input length. -/
def parseJPairs : Nat → List Char → Option (List (String × String) × List Char)
  | 0, _ => none
  | fuel + 1, l =>
    match parseJStr (skipJsonWs l) with
    | none => none
    | some (k, r1) =>
      match skipJsonWs r1 with
      | c :: r2 =>
        if c = ':' then
          match parseJStr (skipJsonWs r2) with
          | none => none
          | some (v, r3) =>
            match skipJsonWs r3 with
            | d :: r4 =>
              if d = ',' then
                match parseJPairs fuel r4 with
                | some (ps, r5) => some ((k, v) :: ps, r5)
                | none => none
              else if d = rbraceChar then
                some ([(k, v)], r4)
              else none
            | [] => none
        else none
      | [] => none

/-- The routed-command dictionary consulted by `route_command`,
`broadcast` and friends: the keys `cmd`, `args`, `target`, `from` that the
Python code reads, each present or absent (`.get` semantics). -/
structure Cmd where
  cmd : Option String
  args : Option String
  target : Option String
  fromKey : Option String
  deriving Repr, DecidableEq

/-- Build a `Cmd` from parsed JSON object pairs (keys other than the four
consulted by the code are irrelevant to every behaviour proved here). -/
def cmdOfPairs (ps : List (String × String)) : Cmd :=
  ⟨dlookup ps "cmd", dlookup ps "args", dlookup ps "target", dlookup ps "from"⟩

/-- Python `json.loads` restricted to the shapes the botnet code feeds it:
an object with string keys and string values.  Anything else raises
`json.JSONDecodeError`; the callers catch every exception, so the precise
error class is unobservable. -/
def jsonLoads (s : String) : Except PyErr Cmd :=
  match skipJsonWs s.data with
  | c :: rest =>
    if c = lbraceChar then
      match skipJsonWs rest with
      | d :: r2 =>
        if d = rbraceChar then
          if (skipJsonWs r2).isEmpty then .ok ⟨none, none, none, none⟩
          else .error .jsonDecodeError
        else
          match parseJPairs (rest.length + 1) rest with
          | some (ps, r3) =>
            if (skipJsonWs r3).isEmpty then .ok (cmdOfPairs ps)
            else .error .jsonDecodeError
          | none => .error .jsonDecodeError
      | [] => .error .jsonDecodeError
    else .error .jsonDecodeError
  | [] => .error .jsonDecodeError

/-- Python `json.dumps` of the routed-command dictionary (keys in the
canonical order `cmd`, `args`, `target`, `from`; only the presence of the
resulting frame matters to any theorem below, never its exact text). -/
def jsonDumps (c : Cmd) : String :=
  let fs :=
    (match c.cmd with | some v => [("cmd", v)] | none => []) ++
    (match c.args with | some v => [("args", v)] | none => []) ++
    (match c.target with | some v => [("target", v)] | none => []) ++
    (match c.fromKey with | some v => [("from", v)] | none => [])
  "\x7b" ++
    String.intercalate ", "
      (fs.map (fun p => "\"" ++ p.1 ++ "\": \"" ++ p.2 ++ "\"")) ++ "\x7d"

/-- The `BotLink` dataclass of `src/botnet.py` (active bot link config). -/
structure BotLink where
  name : String
  host : String
  port : Int
  relayPort : Option Int
  flags : String
  isHub : Bool
  fingerprint : Option String
  subnetId : Option Int
  deriving Repr, DecidableEq

/-- Items the embedded code puts on the `core_q` queue. -/
inductive CoreItem where
  | command (text : String) (nick : String) (source : String)
  | partylineNewUser (handle : String) (ip : String) (port : Int) (firstline : String)
  deriving Repr, DecidableEq

/-- Observable effects of the embedded code.  Writers are identified by a
numeric id; `write w d` is `writer.write(d)` on writer `w`, `closeW w` is
`writer.close()`, `corePut` / `partyPut` are queue puts, the `log*`
constructors are log records, `spawnRead` is `asyncio.create_task` of a
read loop, `respond` is the `respond` callback of `src/botcmds.py`, and
`shareChansW` is a successful `share_channels(writer)` call. -/
inductive Ev where
  | write (w : Nat) (data : String)
  | closeW (w : Nat)
  | corePut (item : CoreItem)
  | partyPut (chan : Int) (text : String)
  | logErr (tag : String)
  | logWarn (tag : String)
  | logInfo (tag : String)
  | spawnRead (name : String)
  | respond (text : String)
  | shareChansW (w : Nat)
  deriving Repr, DecidableEq

/-- The mutable `BotnetManager` state touched by the verified operations:
`self.links` (handle to `(reader, writer)`; the writer id stands for the
pair), `self.peers`, `self.my_handle` and `self.subnet_id`.  Fields the
verified operations never read or write (queues, buffers, config, server,
loop, `partyline_channels`, `is_hub`, `my_port`, `running`) are carried by
the effect trace or elided. -/
structure BotState where
  links : List (String × Nat)
  peers : List (String × BotLink)
  myHandle : String
  subnetId : Int
  deriving Repr, DecidableEq

/-- The local scope of `BotnetManager._safe_write` (its parameters; the
function body binds no other local before its first statement runs). -/
def safeWriteScope : List String := ["self", "writer", "msg"]

/-- The module-level names of `src/botnet.py` visible inside
`_safe_write` (imports, the logger, and the module's own definitions). -/
def botnetModuleScope : List String :=
  ["os", "time", "asyncio", "json", "logging", "socket", "queue",
   "threading", "Dict", "List", "Optional", "Tuple", "Any", "dataclass",
   "aiosqlite", "log", "BotLink", "BotnetManager", "start_server_tasks",
   "start_botnet_process", "botnet_process_launcher"]

/-- Python name resolution as seen from inside `_safe_write`: a name is
looked up in the function's local scope, then in the module globals;
anywhere else it raises `NameError`. -/
def safeWriteResolve (v : String) : Except PyErr String :=
  if v ∈ safeWriteScope ∨ v ∈ botnetModuleScope then .ok v
  else .error .nameError

/-- `BotnetManager._safe_write(writer, msg)`.  Its first statement,
`self.outbufs.setdefault(name, bytearray()).extend(msg.encode('utf-8'))`,
evaluates the variable `name`, which is bound neither in the function
scope (`safeWriteScope`) nor at module level (`botnetModuleScope`), so the
statement raises `NameError` before anything is written.  The remainder of
the body is unreachable; it is modelled counterfactually as one successful
write of `msg` (the buffer bookkeeping of the dead loop is elided). -/
def safeWrite (w : Nat) (msg : String) : List Ev × Option PyErr :=
  match safeWriteResolve "name" with
  | .error e => ([], some e)
  | .ok _ => ([Ev.write w msg], none)

/-- `asyncio.gather(*tasks, return_exceptions=True)`: every task runs, its
effects are kept, and any exception is absorbed into the result list
instead of propagating. -/
def gatherAbsorb (rs : List (List Ev × Option PyErr)) : List Ev :=
  (rs.map Prod.fst).flatten

/-- The wire frame `f"CMD:{json.dumps(cmd)}\n"`. -/
def cmdFrame (c : Cmd) : String := "CMD:" ++ jsonDumps c ++ "\n"

/-- The wire frame `f"CHAT:{chan}:{msg}\n"`. -/
def chatFrame (chan : Int) (msg : String) : String :=
  "CHAT:" ++ toString chan ++ ":" ++ msg ++ "\n"

/-- The handshake line sent by `BotnetManager.send_handshake`:
`f"BOTLINK {self.my_handle} {target} 1 :WBS Botnet\n"`. -/
def sendHandshakeMsg (myHandle target : String) : String :=
  "BOTLINK " ++ myHandle ++ " " ++ target ++ " 1 :WBS Botnet\n"

/-- `BotnetManager.broadcast(cmd)`: one `_safe_write` task per entry of
`self.links.values()`, gathered with `return_exceptions=True`. -/
def broadcast (st : BotState) (c : Cmd) : List Ev :=
  gatherAbsorb (st.links.map (fun p => safeWrite p.2 (cmdFrame c)))

/-- `BotnetManager.broadcast_subnet(cmd)`: filter `self.peers` by subnet id
(`getattr(v, 'subnet_id', self.subnet_id)` — the dataclass always has the
attribute, so the default is never used and a `None` subnet id compares
unequal to the integer `self.subnet_id`), then `_safe_write` to each
filtered peer that is present in `self.links`. -/
def broadcastSubnet (st : BotState) (c : Cmd) : List Ev :=
  let subnetPeers := st.peers.filter (fun p => p.2.subnetId == some st.subnetId)
  let msg := cmdFrame c
  gatherAbsorb (subnetPeers.filterMap
    (fun p => (dlookup st.links p.1).map (fun w => safeWrite w msg)))

/-- `BotnetManager.broadcast_chat(msg, chan, exclude)`: write the chat
frame to every linked writer, skipping an entry exactly when
`exclude and name == exclude` is truthy (so a `None` or empty-string
`exclude` never skips anyone). -/
def broadcastChat (links : List (String × Nat)) (msg : String) (chan : Int)
    (exclude : Option String) : List Ev :=
  links.filterMap (fun p =>
    match exclude with
    | some e =>
      if e ≠ "" ∧ p.1 = e then none
      else some (Ev.write p.2 (chatFrame chan msg))
    | none => some (Ev.write p.2 (chatFrame chan msg)))

/-- `BotnetManager.route_command(cmd, from_bot)`: dispatch on
`cmd.get('target', 'me')`.  A local target formats
`f"{cmd['cmd']} {cmd.get('args', '')}"` (a missing `cmd` key raises
`KeyError`) and puts a `COMMAND` item on `core_q`; `subnet` and `botnet`
invoke the corresponding broadcast; any other target falls off the end of
the `elif` chain and does nothing. -/
def routeCommand (st : BotState) (c : Cmd) (fromBot : String) :
    BotState × List Ev × Option PyErr :=
  let target := c.target.getD "me"
  if target = "me" ∨ target = st.myHandle then
    match c.cmd with
    | none => (st, [], some PyErr.keyError)
    | some cc =>
      (st, [Ev.corePut (CoreItem.command (cc ++ " " ++ c.args.getD "")
        fromBot "botnet")], none)
  else if target = "subnet" then (st, broadcastSubnet st c, none)
  else if target = "botnet" then (st, broadcast st c, none)
  else (st, [], none)

/-- `BotnetManager.parse_command(line)`: parse `.cmd [target=x] args`.
`parts[0]` on an empty split raises `IndexError` (a bare `"."`), as does
`target_parts[0]` when nothing follows the first `'='`; the
`prefix, rest = args.split('=', 1)` unpacking is guarded by the
containment test, so its `ValueError` arm is unreachable. -/
def parseCommand (line : String) : Except PyErr Cmd :=
  let body := String.mk (line.data.drop 1)
  match pySplitWsMax1 body with
  | [] => .error .indexError
  | cmdName :: restL =>
    let args := restL.headD ""
    if pyContains args "target=" then
      match pySplitOnMax1 args '=' with
      | _pre :: rest :: [] =>
        match pySplitWsMax1 rest with
        | [] => .error .indexError
        | t :: more => .ok ⟨some cmdName, some (more.headD ""), some t, none⟩
      | _ => .error .valueError
    else .ok ⟨some cmdName, some args, some "me", none⟩

/-- The branch taken by the `if`/`elif` prefix chain of
`BotnetManager.process_line` on the stripped line. -/
inductive LineKind where
  | dotCmd
  | botlinkMsg
  | shareUsersMsg
  | shareChansMsg
  | chatMsg
  | cmdMsg
  | plainMsg
  deriving Repr, DecidableEq

/-- Classify a (stripped) line exactly as `process_line`'s prefix chain
does. -/
def classifyLine (l : String) : LineKind :=
  if pyStartsWith l "." then .dotCmd
  else if pyStartsWith l "BOTLINK" then .botlinkMsg
  else if pyStartsWith l "SHAREUSERS:" then .shareUsersMsg
  else if pyStartsWith l "SHARECHANS:" then .shareChansMsg
  else if pyStartsWith l "CHAT:" then .chatMsg
  else if pyStartsWith l "CMD:" then .cmdMsg
  else .plainMsg

/-- `BotnetManager.process_line(line, from_bot, writer)` (the `writer`
parameter is unused by the body and omitted).  Returns the updated state,
the effect trace, and the exception escaping the call, if any. -/
def processLine (st : BotState) (rawLine : String) (fromBot : String) :
    BotState × List Ev × Option PyErr :=
  let line := pyStrip rawLine
  match classifyLine line with
  | .dotCmd =>
    match parseCommand line with
    | .error e => (st, [], some e)
    | .ok c => routeCommand st c fromBot
  | .botlinkMsg =>
    match pySplitWs line with
    | _ :: remote :: _ :: _ =>
      let evs := [Ev.logInfo "handshake confirmed"]
      if pyStartsWith fromBot "incoming_" then
        match dlookup st.links fromBot with
        | none => (st, evs, some PyErr.keyError)
        | some w =>
          (⟨dinsert (ddel st.links fromBot) remote w, st.peers,
            st.myHandle, st.subnetId⟩, evs, none)
      else (st, evs, none)
    | _ => (st, [], none)
  | .shareUsersMsg => (st, [Ev.logInfo "received shared users"], none)
  | .shareChansMsg => (st, [Ev.logInfo "received shared channels"], none)
  | .chatMsg =>
    match pySplitOnMax2 line ':' with
    | [_, chanStr, msg] =>
      match pyInt chanStr with
      | .error e => (st, [], some e)
      | .ok chan => (st, [Ev.partyPut chan msg], none)
    | _ => (st, [], none)
  | .cmdMsg =>
    let payload := (pySplitOnMax1 line ':').getD 1 ""
    match jsonLoads payload with
    | .error _ => (st, [Ev.logErr "failed to parse CMD"], none)
    | .ok c =>
      let r := routeCommand st c fromBot
      (r.1, r.2.1 ++ (if (r.2.2).isSome then [Ev.logErr "failed to parse CMD"]
        else []), none)
  | .plainMsg =>
    (st, broadcastChat st.links ("<" ++ fromBot ++ "> " ++ line) 0
      (some fromBot), none)

/-- The `while` body of `BotnetManager.read_loop` at line granularity:
process each decoded line in order (empty lines are skipped by
`if line:`); the first exception escaping `process_line` aborts the
loop. -/
def processLines (fromBot : String) :
    BotState → List String → BotState × List Ev × Option PyErr
  | st, [] => (st, [], none)
  | st, l :: rest =>
    if l = "" then processLines fromBot st rest
    else
      match processLine st l fromBot with
      | (st1, evs, some e) => (st1, evs, some e)
      | (st1, evs, none) =>
        let r := processLines fromBot st1 rest
        (r.1, evs ++ r.2.1, r.2.2)

/-- `BotnetManager.read_loop(reader, writer, name)` over a finished stream
of decoded lines: run the loop, log any escaped exception (`except` arm),
then unconditionally close the writer and drop the link registry entry
(`finally` arm). -/
def readLoop (st : BotState) (fromBot : String) (w : Nat)
    (lines : List String) : BotState × List Ev :=
  let r := processLines fromBot st lines
  let errEvs := match r.2.2 with
    | some _ => [Ev.logErr "read loop error"]
    | none => []
  (⟨ddel r.1.links fromBot, r.1.peers, r.1.myHandle, r.1.subnetId⟩,
    r.2.1 ++ errEvs ++ [Ev.closeW w])

/-- `BotnetManager.handle_incoming` from the point where the first line
has been read and decoded: a `BOTLINK` line with at least three tokens is
answered with `send_handshake` (a reply of the same fixed `BOTLINK` form),
registered in `self.links`, and given a read-loop task; any other line is
forwarded to the core process as a partyline user.  The `finally` arm
closes the writer in every case. -/
def handleIncomingLine (st : BotState) (w : Nat) (clientip : String)
    (clientport : Int) (rawLine : String) : BotState × List Ev :=
  let line := pyStrip rawLine
  let incomingLog := [Ev.logInfo "incoming connection"]
  if pyStartsWith line "BOTLINK" then
    match pySplitWs line with
    | _ :: remote :: _ :: _ =>
      (⟨dinsert st.links remote w, st.peers, st.myHandle, st.subnetId⟩,
        incomingLog ++
          [Ev.logInfo "bot link established",
           Ev.write w (sendHandshakeMsg st.myHandle remote),
           Ev.spawnRead remote, Ev.closeW w])
    | _ => (st, incomingLog ++ [Ev.closeW w])
  else
    (st, incomingLog ++
      [Ev.logInfo "partyline connection",
       Ev.corePut (CoreItem.partylineNewUser
         ("user_" ++ clientip ++ "_" ++ toString clientport)
         clientip clientport line),
       Ev.closeW w])

/-- The `'unlink'` branch of `BotnetManager.execute_command`: close and
drop the link if present, drop the peer record if present; no branch can
raise, and the surrounding `try`/`except` logs instead of propagating in
any case, so the error component is always `none`. -/
def executeUnlink (st : BotState) (n : String) :
    BotState × List Ev × Option PyErr :=
  let step :=
    match dlookup st.links n with
    | some w => (ddel st.links n, [Ev.closeW w])
    | none => (st.links, [])
  (⟨step.1, ddel st.peers n, st.myHandle, st.subnetId⟩, step.2, none)

/-- The attribute names available on a `BotnetManager` instance: the
instance attributes assigned in `__init__` plus the methods defined by the
class body in `src/botnet.py`. -/
def botnetManagerAttrs : List String :=
  ["config", "core_q", "irc_q", "botnet_q", "party_q", "db_path", "links",
   "peers", "partyline_channels", "is_hub", "subnet_id", "my_handle",
   "my_port", "running", "server", "loop", "inbufs", "outbufs",
   "__init__", "start_link", "send_handshake", "handle_peer", "read_loop",
   "process_line", "relay_to_partyline", "parse_command", "route_command",
   "share_userfile", "share_channels", "handle_share_users",
   "handle_share_channels", "broadcast_chat", "broadcast",
   "broadcast_subnet", "_safe_write", "handle_incoming", "execute_command",
   "stop"]

/-- Does a `BotnetManager` instance have the named attribute? -/
def hasAttrBM (a : String) : Bool := a ∈ botnetManagerAttrs

/-- Python attribute access `manager.<a>`: `AttributeError` when the name
is neither an instance attribute nor a method of `BotnetManager`. -/
def getattrBM (a : String) : Except PyErr Unit :=
  if hasAttrBM a then .ok () else .error .attributeError

/-- `cmd_unlink` from `src/botcmds.py`: usage message on empty args
(Python truthiness of the string), otherwise drop the stripped name from
`manager.links` (closing the writer) and, inside the same branch, from
`manager.peers`; respond either way and never raise. -/
def cmdUnlink (st : BotState) (args : String) :
    BotState × List Ev × Option PyErr :=
  if args = "" then (st, [Ev.respond "Usage: .unlink <name>"], none)
  else
    let n := pyStrip args
    match dlookup st.links n with
    | some w =>
      (⟨ddel st.links n, ddel st.peers n, st.myHandle, st.subnetId⟩,
        [Ev.closeW w, Ev.respond ("Unlinked from " ++ n)], none)
    | none => (st, [Ev.respond ("Not linked to " ++ n)], none)

/-- `cmd_link` from `src/botcmds.py`: after parsing
`<name> <host> <port> [flags]` it stores the `BotLink` in `manager.peers`
and then evaluates `manager.connect_peer`, an attribute `BotnetManager`
does not define, so the call raises `AttributeError` before any
connection is attempted and the final `respond` is never reached. -/
def cmdLink (st : BotState) (args : String) :
    BotState × List Ev × Option PyErr :=
  match pySplitWs args with
  | n :: h :: p :: rest =>
    match pyInt p with
    | .error e => (st, [], some e)
    | .ok port =>
      let link : BotLink :=
        ⟨n, h, port, none, rest.headD "", false, none, some st.subnetId⟩
      let st1 : BotState :=
        ⟨st.links, dinsert st.peers n link, st.myHandle, st.subnetId⟩
      match getattrBM "connect_peer" with
      | .error e => (st1, [], some e)
      | .ok _ => (st1, [Ev.respond ("Linking to " ++ n ++ " at " ++ h)], none)
  | _ => (st, [Ev.respond "Usage: .link <name> <host> <port> [flags]"], none)

/-- `cmd_relay` from `src/botcmds.py`: `all` resolves
`manager.broadcast_all` (undefined, `AttributeError`); `subnet` calls the
real `broadcast_subnet`; a specific linked bot resolves
`manager._safe_send` (undefined, `AttributeError`) after computing the
frame text; an unlinked bot gets a respond message. -/
def cmdRelay (st : BotState) (fromBot : String) (args : String) :
    BotState × List Ev × Option PyErr :=
  match pySplitWsMax1 args with
  | [target, command] =>
    let c : Cmd := ⟨some command, none, some target, some fromBot⟩
    if target = "all" then
      match getattrBM "broadcast_all" with
      | .error e => (st, [], some e)
      | .ok _ =>
        (st, [Ev.respond ("Broadcasting to all bots: " ++ command)], none)
    else if target = "subnet" then
      (st, broadcastSubnet st c ++
        [Ev.respond ("Broadcasting to subnet: " ++ command)], none)
    else
      match dlookup st.links target with
      | some _w =>
        match getattrBM "_safe_send" with
        | .error e => (st, [], some e)
        | .ok _ => (st, [Ev.respond ("Sent to " ++ target ++ ": " ++ command)], none)
      | none =>
        (st, [Ev.respond ("Bot '" ++ target ++ "' not linked")], none)
  | _ => (st, [Ev.respond "Usage: .relay <bot|subnet|all> <command>"], none)

/-- `cmd_share` from `src/botcmds.py`: for share type `users` or `all` it
resolves `manager.share_users`, an attribute `BotnetManager` does not
define (the class method is named `share_userfile`), so the call raises
`AttributeError` before anything is shared; `channels` alone reaches the
real `share_channels`. -/
def cmdShare (st : BotState) (args : String) :
    BotState × List Ev × Option PyErr :=
  match pySplitWs args with
  | [] => (st, [Ev.respond "Usage: .share <botname> [users|channels|all]"], none)
  | targetBot :: rest =>
    let shareType := rest.headD "all"
    match dlookup st.links targetBot with
    | none => (st, [Ev.respond ("Bot '" ++ targetBot ++ "' not linked")], none)
    | some w =>
      if shareType = "users" ∨ shareType = "all" then
        match getattrBM "share_users" with
        | .error e => (st, [], some e)
        | .ok _ =>
          let evs := if shareType = "all" then [Ev.shareChansW w] else []
          (st, evs ++ [Ev.respond ("Shared " ++ shareType ++ " with " ++ targetBot)],
            none)
      else
        let evs := if shareType = "channels" then [Ev.shareChansW w] else []
        (st, evs ++ [Ev.respond ("Shared " ++ shareType ++ " with " ++ targetBot)],
          none)

/-- A concrete manager state with two linked peers, used by concrete
evaluations below. -/
def stTwo : BotState := ⟨[("bob", 1), ("carol", 2)], [], "hub1", 1⟩

/-- A concrete manager state with no linked peers. -/
def stEmpty : BotState := ⟨[], [], "hub1", 1⟩

/-- A concrete acceptor-side manager state. -/
def stAccept : BotState := ⟨[], [], "leaf1", 1⟩

/-- A concrete hub state with two linked leaves. -/
def stLinked : BotState := ⟨[("leaf1", 1), ("leaf2", 2)], [], "hub1", 1⟩

end WBS

theorem check_json :
    WBS.jsonLoads "\x7b\"cmd\": \"die\",\"target\": \"me\"\x7d" =
      .ok ⟨some "die", none, some "me", none⟩ := rfl

theorem check_json2 :
    WBS.jsonLoads "\x7bnot valid json\x7d" = .error .jsonDecodeError := rfl

theorem check_split : WBS.pySplitWsMax1 "a  b  c " = ["a", "b  c "] := by decide

theorem check_int : WBS.pyInt "x" = .error .valueError := rfl

theorem check_int2 : WBS.pyInt " 42 " = .ok 42 := rfl

theorem check_sw : WBS.pyStartsWith "CMD:stuff" "CMD:" = true := rfl

theorem check_split2 : WBS.pySplitOnMax2 "CHAT:5:hi:there" ':' = ["CHAT", "5", "hi:there"] := rfl

theorem check_split3 : WBS.pySplitWs "BOTLINK hub1 leaf1 1 :WBS Botnet" =
    ["BOTLINK", "hub1", "leaf1", "1", ":WBS", "Botnet"] := rfl

theorem check_strip : WBS.pyStrip "  ab c \r" = "ab c" := rfl

theorem check_contains : WBS.pyContains "say target=subnet hi" "target=" = true := rfl

namespace WBS

theorem check_dotparse :
    parseCommand ".relay target=botnet say hi" =
      .ok ⟨some "relay", some "say hi", some "botnet", none⟩ := by decide

theorem gatherAbsorb_all_nil (rs : List (List Ev × Option PyErr))
    (h : ∀ r ∈ rs, r.1 = []) : gatherAbsorb rs = [] := by
  induction rs with
  | nil => rfl
  | cons a l ih =>
    have ha := h a (List.mem_cons_self a l)
    have hl : ∀ r ∈ l, r.1 = [] := fun r hr => h r (List.mem_cons_of_mem a hr)
    have htl := ih hl
    unfold gatherAbsorb at htl ⊢
    simp only [List.map_cons, List.flatten_cons, ha, List.nil_append]
    exact htl

theorem broadcast_eq_nil (st : BotState) (c : Cmd) : broadcast st c = [] := by
  apply gatherAbsorb_all_nil
  intro r hr
  obtain ⟨p, _, rfl⟩ := List.mem_map.1 hr
  rfl

theorem broadcastSubnet_eq_nil (st : BotState) (c : Cmd) :
    broadcastSubnet st c = [] := by
  apply gatherAbsorb_all_nil
  intro r hr
  obtain ⟨a, _, hg⟩ := List.mem_filterMap.1 hr
  obtain ⟨w, _, rfl⟩ := Option.map_eq_some'.1 hg
  rfl

theorem dlookup_ddel {α : Type} (m : List (String × α)) (k : String) :
    dlookup (ddel m k) k = none := by
  induction m with
  | nil => rfl
  | cons x xs ih =>
    by_cases hx : x.1 = k
    · simp_all [ddel]
    · simp_all [ddel, dlookup, List.find?_cons]

theorem ddel_ddel {α : Type} (m : List (String × α)) (k : String) :
    ddel (ddel m k) k = ddel m k := by
  induction m with
  | nil => rfl
  | cons x xs ih =>
    by_cases hx : x.1 = k
    · simp_all [ddel]
    · simp_all [ddel]

theorem broadcastChat_mem (links : List (String × Nat)) (msg : String)
    (chan : Int) (ex : Option String) :
    ∀ ev ∈ broadcastChat links msg chan ex,
      ∃ w : Nat, ev = Ev.write w (chatFrame chan msg) := by
  intro ev hev
  obtain ⟨p, _, hp⟩ := List.mem_filterMap.1 hev
  cases ex with
  | none => exact ⟨p.2, (Option.some.inj hp).symm⟩
  | some e =>
    dsimp only at hp
    by_cases hc : e ≠ "" ∧ p.1 = e
    · rw [if_pos hc] at hp
      cases hp
    · rw [if_neg hc] at hp
      exact ⟨p.2, (Option.some.inj hp).symm⟩

theorem route_no_logWarn (st : BotState) (c : Cmd) (fromBot t : String) :
    Ev.logWarn t ∉ (routeCommand st c fromBot).2.1 := by
  unfold routeCommand
  by_cases h1 : c.target.getD "me" = "me" ∨ c.target.getD "me" = st.myHandle
  · cases hc : c.cmd <;> simp [h1, hc]
  · by_cases h2 : c.target.getD "me" = "subnet"
    · have hm : ¬("subnet" : String) = st.myHandle :=
        fun hh => h1 (Or.inr (h2.trans hh))
      simp [h1, h2, hm, broadcastSubnet_eq_nil]
    · by_cases h3 : c.target.getD "me" = "botnet"
      · have hm : ¬("botnet" : String) = st.myHandle :=
          fun hh => h1 (Or.inr (h3.trans hh))
        simp [h1, h2, h3, hm, broadcast_eq_nil]
      · simp [h1, h2, h3]

/-- Claim C9: every call to `BotnetManager._safe_write` raises `NameError`
before any bytes reach the writer, because the variable `name` it uses is
unbound in its scope; consequently `broadcast` and `broadcast_subnet`
complete without writing any `CMD` frame to any peer (the exceptions are
absorbed by `asyncio.gather` with `return_exceptions=True`). -/
theorem C9_safe_write_name_error :
    safeWriteResolve "name" = Except.error PyErr.nameError ∧
    (∀ (w : Nat) (msg : String), safeWrite w msg = ([], some PyErr.nameError)) ∧
    (∀ (st : BotState) (c : Cmd), broadcast st c = [] ∧ broadcastSubnet st c = []) := by
  refine ⟨rfl, fun w msg => rfl, fun st c => ⟨broadcast_eq_nil st c, broadcastSubnet_eq_nil st c⟩⟩

/-- Claim C3 (code_bug): the spec requires `target=botnet` routing to
deliver a `Cmd` frame to every currently linked/authenticated session, but
at this concrete failing input (two peers linked, routed command with
`target=botnet`) the code produces an empty effect trace: `_safe_write`
raises `NameError` for each peer (absorbed by `gather`), so neither linked
session receives any frame. -/
theorem C3_botnet_broadcast_writes_nothing :
    stLinked.links = [("leaf1", 1), ("leaf2", 2)] ∧
    routeCommand stLinked ⟨some "say", some "hi", some "botnet", none⟩ "core" =
      (stLinked, [], none) := by decide

/-- Claim C7: for every routed command whose target is `me` or this bot's
own handle, `route_command` hands the formatted command to the local
executor via `core_q` (raising `KeyError` instead when the `cmd` key is
absent) and performs no peer I/O: no write effect occurs and the state,
including the link map, is unchanged. -/
theorem C7_local_target_no_peer_io (st : BotState) (c : Cmd) (fromBot : String)
    (h : c.target.getD "me" = "me" ∨ c.target.getD "me" = st.myHandle) :
    routeCommand st c fromBot =
      (st,
        match c.cmd with
        | some cc =>
          [Ev.corePut (CoreItem.command (cc ++ " " ++ c.args.getD "") fromBot "botnet")]
        | none => [],
        match c.cmd with
        | some _ => none
        | none => some PyErr.keyError) ∧
    (∀ (w : Nat) (d : String), Ev.write w d ∉ (routeCommand st c fromBot).2.1) := by
  have heq : routeCommand st c fromBot =
      (st,
        match c.cmd with
        | some cc =>
          [Ev.corePut (CoreItem.command (cc ++ " " ++ c.args.getD "") fromBot "botnet")]
        | none => [],
        match c.cmd with
        | some _ => none
        | none => some PyErr.keyError) := by
    cases hc : c.cmd <;> simp [routeCommand, h, hc]
  refine ⟨heq, fun w d hw => ?_⟩
  rw [heq] at hw
  cases hc : c.cmd <;> rw [hc] at hw <;> simp at hw

/-- Witness for C7 at a concrete local-target command. -/
theorem C7_witness :
    routeCommand stTwo ⟨some "status", none, some "me", none⟩ "bob" =
      (stTwo, [Ev.corePut (CoreItem.command "status " "bob" "botnet")], none) :=
  (C7_local_target_no_peer_io stTwo ⟨some "status", none, some "me", none⟩ "bob"
    (Or.inl rfl)).1

/-- Claim C8: unlink is idempotent.  For every state and handle, the
`'unlink'` branch of `execute_command` never raises, leaves no link or
peer entry for the handle, and a second invocation is a complete no-op;
likewise `cmd_unlink` never raises, and invoking it twice on the same
(nonempty) argument leaves no link-map entry for the stripped handle. -/
theorem C8_unlink_idempotent (st : BotState) (n args : String) :
    (executeUnlink st n).2.2 = none ∧
    dlookup (executeUnlink st n).1.links n = none ∧
    dlookup (executeUnlink st n).1.peers n = none ∧
    executeUnlink (executeUnlink st n).1 n = ((executeUnlink st n).1, [], none) ∧
    (cmdUnlink st args).2.2 = none ∧
    (cmdUnlink (cmdUnlink st args).1 args).2.2 = none ∧
    (args ≠ "" →
      dlookup (cmdUnlink (cmdUnlink st args).1 args).1.links (pyStrip args) = none) := by
  have hlinks : dlookup (executeUnlink st n).1.links n = none := by
    cases hl : dlookup st.links n <;> simp [executeUnlink, hl, dlookup_ddel]
  have hpeers : dlookup (executeUnlink st n).1.peers n = none := by
    cases hl : dlookup st.links n <;> simp [executeUnlink, hl, dlookup_ddel]
  have hexc : (executeUnlink st n).2.2 = none := by
    cases hl : dlookup st.links n <;> simp [executeUnlink, hl]
  have hsecond : executeUnlink (executeUnlink st n).1 n =
      ((executeUnlink st n).1, [], none) := by
    cases hl : dlookup st.links n <;>
      simp [executeUnlink, hl, dlookup_ddel, ddel_ddel]
  have hexcCmd : ∀ (s : BotState) (a : String), (cmdUnlink s a).2.2 = none := by
    intro s a
    by_cases ha : a = ""
    · simp [cmdUnlink, ha]
    · cases hl : dlookup s.links (pyStrip a) <;> simp [cmdUnlink, ha, hl]
  have hlookGen : ∀ (s : BotState) (a : String), a ≠ "" →
      dlookup (cmdUnlink s a).1.links (pyStrip a) = none := by
    intro s a ha
    cases hl : dlookup s.links (pyStrip a) with
    | some w => simp [cmdUnlink, ha, hl, dlookup_ddel]
    | none =>
      simp only [cmdUnlink, ha, hl, if_neg ha]
      exact hl
  exact ⟨hexc, hlinks, hpeers, hsecond, hexcCmd st args,
    hexcCmd (cmdUnlink st args).1 args,
    fun ha => hlookGen (cmdUnlink st args).1 args ha⟩

/-- Witness for C8 at a concrete state and handle. -/
theorem C8_witness :
    (executeUnlink stTwo "bob").2.2 = none ∧
    dlookup (cmdUnlink (cmdUnlink stTwo "bob").1 "bob").1.links (pyStrip "bob") = none :=
  ⟨(C8_unlink_idempotent stTwo "bob" "bob").1,
   (C8_unlink_idempotent stTwo "bob" "bob").2.2.2.2.2.2 (by decide)⟩

/-- Claim C10: `.link`, `.relay` (with an `all` or specific-bot target)
and `.share` (users) resolve attributes `BotnetManager` does not define —
`connect_peer`, `broadcast_all`, `_safe_send` and `share_users` — so every
such invocation raises `AttributeError` at that call: `cmd_link` leaves
the link map untouched and connects nothing, `cmd_relay` writes nothing,
and `cmd_share` shares nothing. -/
theorem C10_missing_methods :
    hasAttrBM "connect_peer" = false ∧
    hasAttrBM "broadcast_all" = false ∧
    hasAttrBM "_safe_send" = false ∧
    hasAttrBM "share_users" = false ∧
    (∀ (st : BotState) (args n h p : String) (rest : List String) (v : Int),
      pySplitWs args = n :: h :: p :: rest → pyInt p = Except.ok v →
      (cmdLink st args).2.2 = some PyErr.attributeError ∧
      (cmdLink st args).1.links = st.links ∧
      (cmdLink st args).2.1 = []) ∧
    (∀ (st : BotState) (fb args command : String),
      pySplitWsMax1 args = ["all", command] →
      cmdRelay st fb args = (st, [], some PyErr.attributeError)) ∧
    (∀ (st : BotState) (fb args t command : String) (w : Nat),
      pySplitWsMax1 args = [t, command] → t ≠ "all" → t ≠ "subnet" →
      dlookup st.links t = some w →
      cmdRelay st fb args = (st, [], some PyErr.attributeError)) ∧
    (∀ (st : BotState) (args bot : String) (rest : List String) (w : Nat),
      pySplitWs args = bot :: rest →
      (rest.headD "all" = "users" ∨ rest.headD "all" = "all") →
      dlookup st.links bot = some w →
      cmdShare st args = (st, [], some PyErr.attributeError)) := by
  have hcp : getattrBM "connect_peer" = Except.error PyErr.attributeError := by decide
  have hba : getattrBM "broadcast_all" = Except.error PyErr.attributeError := by decide
  have hss : getattrBM "_safe_send" = Except.error PyErr.attributeError := by decide
  have hsu : getattrBM "share_users" = Except.error PyErr.attributeError := by decide
  refine ⟨by decide, by decide, by decide, by decide, ?_, ?_, ?_, ?_⟩
  · intro st args n h p rest v hsplit hint
    simp [cmdLink, hsplit, hint, hcp]
  · intro st fb args command hsplit
    simp [cmdRelay, hsplit, hba]
  · intro st fb args t command w hsplit ht1 ht2 hlk
    simp [cmdRelay, hsplit, ht1, ht2, hlk, hss]
  · intro st args bot rest w hsplit hty hlk
    have hty' : rest.head?.getD "all" = "users" ∨ rest.head?.getD "all" = "all" := by
      simpa using hty
    simp [cmdShare, hsplit, hlk, hsu]
    intro hA
    rcases hty' with h | h
    · exact absurd h hA
    · exact h

/-- Witness for C10 at concrete commands against a linked state. -/
theorem C10_witness :
    (cmdLink stTwo "leafX 10.0.0.9 3333").2.2 = some PyErr.attributeError ∧
    cmdRelay stTwo "op" "all restart" = (stTwo, [], some PyErr.attributeError) ∧
    cmdRelay stTwo "op" "bob restart" = (stTwo, [], some PyErr.attributeError) ∧
    cmdShare stTwo "bob users" = (stTwo, [], some PyErr.attributeError) :=
  ⟨(C10_missing_methods.2.2.2.2.1 stTwo "leafX 10.0.0.9 3333" "leafX" "10.0.0.9"
      "3333" [] 3333 (by decide) (by decide)).1,
   C10_missing_methods.2.2.2.2.2.1 stTwo "op" "all restart" "restart" (by decide),
   C10_missing_methods.2.2.2.2.2.2.1 stTwo "op" "bob restart" "bob" "restart" 1
     (by decide) (by decide) (by decide) (by decide),
   C10_missing_methods.2.2.2.2.2.2.2 stTwo "bob users" "bob" ["users"] 1
     (by decide) (Or.inl (by decide)) (by decide)⟩

/-- Claim C1 (counterexample): at a concrete no-stored-secret negotiation
the initiator's frame is the fixed six-token `BOTLINK` line with no nonce,
and the acceptor's complete effect trace contains exactly one outbound
frame — the same fixed-form `BOTLINK` line with the handles swapped, not a
`LINKACK`, again six tokens and no nonce — and no secret is computed or
persisted by either side, contradicting the claimed `N1`/`N2` exchange
and `H(N1 ∥ N2)` derivation. -/
theorem C1_counterexample :
    sendHandshakeMsg "hub1" "leaf1" = "BOTLINK hub1 leaf1 1 :WBS Botnet\n" ∧
    (pySplitWs (sendHandshakeMsg "hub1" "leaf1")).length = 6 ∧
    handleIncomingLine stAccept 5 "10.0.0.1" 4000
        "BOTLINK hub1 leaf1 1 :WBS Botnet" =
      (⟨[("hub1", 5)], [], "leaf1", 1⟩,
        [Ev.logInfo "incoming connection", Ev.logInfo "bot link established",
         Ev.write 5 "BOTLINK leaf1 hub1 1 :WBS Botnet\n",
         Ev.spawnRead "hub1", Ev.closeW 5]) ∧
    pyStartsWith "BOTLINK leaf1 hub1 1 :WBS Botnet\n" "LINKACK" = false ∧
    (pySplitWs "BOTLINK leaf1 hub1 1 :WBS Botnet\n").length = 6 := by decide

/-- Claim C1 as amended: for any two peers negotiating a link, the
initiator sends the fixed frame `BOTLINK <me> <peer> 1 :WBS Botnet` with
no nonce, and the acceptor replies with the very same fixed-form frame
(produced by the same `send_handshake`, handles swapped), registers the
link and closes the writer; no nonce is generated and no shared secret is
computed or persisted on either side, so the two sides trivially agree in
holding no handshake-derived secret. -/
theorem C1_handshake_no_nonce_symmetric (st : BotState) (w : Nat)
    (ip : String) (cp : Int) (rawLine : String) (a remote c3 : String)
    (restT : List String)
    (hsw : pyStartsWith (pyStrip rawLine) "BOTLINK" = true)
    (hsp : pySplitWs (pyStrip rawLine) = a :: remote :: c3 :: restT) :
    handleIncomingLine st w ip cp rawLine =
      (⟨dinsert st.links remote w, st.peers, st.myHandle, st.subnetId⟩,
        [Ev.logInfo "incoming connection", Ev.logInfo "bot link established",
         Ev.write w (sendHandshakeMsg st.myHandle remote),
         Ev.spawnRead remote, Ev.closeW w]) ∧
    (∀ myH tgt : String, sendHandshakeMsg myH tgt =
      "BOTLINK " ++ myH ++ " " ++ tgt ++ " 1 :WBS Botnet\n") := by
  constructor
  · simp [handleIncomingLine, hsw, hsp]
  · intro myH tgt
    rfl

/-- Witness for C1 at a concrete acceptor state and handshake line. -/
theorem C1_witness :
    handleIncomingLine stAccept 6 "10.0.0.2" 4001
        "BOTLINK hubX leaf1 1 :WBS Botnet" =
      (⟨[("hubX", 6)], [], "leaf1", 1⟩,
        [Ev.logInfo "incoming connection", Ev.logInfo "bot link established",
         Ev.write 6 (sendHandshakeMsg "leaf1" "hubX"),
         Ev.spawnRead "hubX", Ev.closeW 6]) :=
  (C1_handshake_no_nonce_symmetric stAccept 6 "10.0.0.2" 4001
    "BOTLINK hubX leaf1 1 :WBS Botnet" "BOTLINK" "hubX" "leaf1"
    ["1", ":WBS", "Botnet"] (by decide) (by decide)).1

/-- Claim C2 (counterexample): a `LINKAUTH` frame carrying a wrong proof,
sent by the linked peer `bob`, is rebroadcast to the other linked peer as
ordinary chat; the state is unchanged (`bob` stays linked), no close
occurs and nothing resembling `LINKREADY` is sent — the session does not
transition to `CLOSED`, contradicting the claim. -/
theorem C2_counterexample :
    processLine stTwo "LINKAUTH bob deadbeef" "bob" =
      (stTwo, [Ev.write 2 "CHAT:0:<bob> LINKAUTH bob deadbeef\n"], none) ∧
    dlookup stTwo.links "bob" = some 1 := by decide

/-- Claim C2 as amended: a `LINKAUTH` frame from a peer is not recognised
as an authentication frame at all — `process_line` falls through to the
regular-chat branch and rebroadcasts it to the other linked peers; the
state (including the sender's link entry) is unchanged, no writer is
closed, and every emitted effect is a chat-frame write (in particular no
`LINKREADY` is ever sent; no code path emits one). -/
theorem C2_linkauth_treated_as_chat (st : BotState) (fb rawLine : String)
    (hstrip : pyStrip rawLine = rawLine)
    (_hla : pyStartsWith rawLine "LINKAUTH" = true)
    (hcl : classifyLine rawLine = LineKind.plainMsg) :
    processLine st rawLine fb =
      (st, broadcastChat st.links ("<" ++ fb ++ "> " ++ rawLine) 0 (some fb),
        none) ∧
    (∀ w : Nat, Ev.closeW w ∉ (processLine st rawLine fb).2.1) ∧
    (∀ ev ∈ (processLine st rawLine fb).2.1,
      ∃ w : Nat, ev = Ev.write w (chatFrame 0 ("<" ++ fb ++ "> " ++ rawLine))) := by
  have heq : processLine st rawLine fb =
      (st, broadcastChat st.links ("<" ++ fb ++ "> " ++ rawLine) 0 (some fb),
        none) := by
    simp [processLine, hstrip, hcl]
  have hshape : ∀ ev ∈ (processLine st rawLine fb).2.1,
      ∃ w : Nat, ev = Ev.write w (chatFrame 0 ("<" ++ fb ++ "> " ++ rawLine)) := by
    rw [heq]
    exact broadcastChat_mem st.links ("<" ++ fb ++ "> " ++ rawLine) 0 (some fb)
  refine ⟨heq, fun w hw => ?_, hshape⟩
  obtain ⟨w2, hw2⟩ := hshape _ hw
  cases hw2

/-- Witness for C2 at a concrete state and `LINKAUTH` line. -/
theorem C2_witness :
    processLine stTwo "LINKAUTH bob 99" "bob" =
      (stTwo, broadcastChat stTwo.links "<bob> LINKAUTH bob 99" 0 (some "bob"),
        none) :=
  (C2_linkauth_treated_as_chat stTwo "bob" "LINKAUTH bob 99" (by decide)
    (by decide) (by decide)).1

/-- Claim C4 (counterexample): in a state with no linked peers at all — so
the sender `evil` is in no session registry and under no reading
authenticated — a `CMD` frame is nevertheless dispatched to the router,
which hands it to the local executor; no warning is recorded and the frame
is not dropped, contradicting the claimed gating. -/
theorem C4_counterexample :
    stEmpty.links = [] ∧
    processLine stEmpty "CMD:\x7b\"cmd\": \"die\",\"target\": \"me\"\x7d" "evil" =
      (stEmpty, [Ev.corePut (CoreItem.command "die " "evil" "botnet")], none) := by
  decide

/-- Claim C4 as amended: the per-peer read loop performs no authentication
gating: for every manager state and every sender, a parseable `CMD` frame
is dispatched to `route_command` exactly as is (with a parse-failure log
appended only when routing itself raised), and no warning is ever
recorded; the manager keeps no per-session authentication state that
could be consulted. -/
theorem C4_no_auth_gating (st : BotState) (fb rawLine : String) (c : Cmd)
    (hcl : classifyLine (pyStrip rawLine) = LineKind.cmdMsg)
    (hjson : jsonLoads ((pySplitOnMax1 (pyStrip rawLine) ':').getD 1 "") =
      Except.ok c) :
    processLine st rawLine fb =
      ((routeCommand st c fb).1,
        (routeCommand st c fb).2.1 ++
          (if ((routeCommand st c fb).2.2).isSome then
            [Ev.logErr "failed to parse CMD"] else []),
        none) ∧
    (∀ t : String, Ev.logWarn t ∉ (processLine st rawLine fb).2.1) := by
  have heq : processLine st rawLine fb =
      ((routeCommand st c fb).1,
        (routeCommand st c fb).2.1 ++
          (if ((routeCommand st c fb).2.2).isSome then
            [Ev.logErr "failed to parse CMD"] else []),
        none) := by
    have hjson2 : jsonLoads ((pySplitOnMax1 (pyStrip rawLine) ':')[1]?.getD "") =
        Except.ok c := by simpa using hjson
    simp [processLine, hcl, hjson2]
  refine ⟨heq, fun t ht => ?_⟩
  rw [heq] at ht
  rcases List.mem_append.1 ht with h | h
  · exact route_no_logWarn st c fb t h
  · by_cases hs : ((routeCommand st c fb).2.2).isSome
    · rw [if_pos hs] at h
      simp at h
    · rw [if_neg hs] at h
      simp at h

/-- Witness for C4: a `CMD` frame from a sender absent from every registry
is routed to the core queue. -/
theorem C4_witness :
    processLine stEmpty "CMD:\x7b\"cmd\": \"op\",\"args\": \"x\",\"target\": \"me\"\x7d"
        "stranger" =
      ((routeCommand stEmpty ⟨some "op", some "x", some "me", none⟩ "stranger").1,
        (routeCommand stEmpty ⟨some "op", some "x", some "me", none⟩ "stranger").2.1 ++
          (if ((routeCommand stEmpty
              ⟨some "op", some "x", some "me", none⟩ "stranger").2.2).isSome then
            [Ev.logErr "failed to parse CMD"] else []),
        none) :=
  (C4_no_auth_gating stEmpty "stranger"
    "CMD:\x7b\"cmd\": \"op\",\"args\": \"x\",\"target\": \"me\"\x7d"
    ⟨some "op", some "x", some "me", none⟩ (by decide) (by decide)).1

/-- Claim C5 (counterexample): an unparseable `CHAT:` frame — non-numeric
channel field, so `int(parts[1])` raises `ValueError` — from the linked
peer `bob` aborts the read loop: the subsequent well-formed frame is never
processed (the trace contains no event for it), and the `finally` arm
closes the connection and drops the link entry, contradicting "only the
single offending frame is dropped and the connection stays open" for
every unparseable frame. -/
theorem C5_counterexample :
    processLines "bob" stTwo ["CHAT:x:hi", "CHAT bob bob hello"] =
      (stTwo, [], some PyErr.valueError) ∧
    readLoop stTwo "bob" 1 ["CHAT:x:hi", "CHAT bob bob hello"] =
      (⟨[("carol", 2)], [], "hub1", 1⟩,
        [Ev.logErr "read loop error", Ev.closeW 1]) := by decide

/-- Claim C5 as amended: for a `CMD:` frame whose payload is not valid
JSON, only that frame is dropped — the parse error is caught inside
`process_line`, a `ProtocolError` log is recorded, the state is unchanged
and no exception escapes — and the read loop continues: prepending the bad
frame to any remaining input leaves the processing of the remaining input
unchanged apart from the leading log entry. -/
theorem C5_cmd_json_error_contained (st : BotState) (fb rawLine : String)
    (e : PyErr)
    (hcl : classifyLine (pyStrip rawLine) = LineKind.cmdMsg)
    (hjson : jsonLoads ((pySplitOnMax1 (pyStrip rawLine) ':').getD 1 "") =
      Except.error e) :
    processLine st rawLine fb = (st, [Ev.logErr "failed to parse CMD"], none) ∧
    (∀ rest : List String, processLines fb st (rawLine :: rest) =
      ((processLines fb st rest).1,
        Ev.logErr "failed to parse CMD" :: (processLines fb st rest).2.1,
        (processLines fb st rest).2.2)) := by
  have hne : rawLine ≠ "" := by
    intro hcontra
    rw [hcontra] at hcl
    exact absurd hcl (by decide)
  have heq : processLine st rawLine fb =
      (st, [Ev.logErr "failed to parse CMD"], none) := by
    have hjson2 : jsonLoads ((pySplitOnMax1 (pyStrip rawLine) ':')[1]?.getD "") =
        Except.error e := by simpa using hjson
    simp [processLine, hcl, hjson2]
  refine ⟨heq, fun rest => ?_⟩
  simp [processLines, hne, heq]

/-- Witness for C5: a concrete malformed `CMD` frame followed by a
well-formed chat line; the chat line is still delivered. -/
theorem C5_witness :
    processLines "bob" stTwo ["CMD:\x7bnot valid json\x7d", "hello"] =
      ((processLines "bob" stTwo ["hello"]).1,
        Ev.logErr "failed to parse CMD" :: (processLines "bob" stTwo ["hello"]).2.1,
        (processLines "bob" stTwo ["hello"]).2.2) :=
  (C5_cmd_json_error_contained stTwo "bob" "CMD:\x7bnot valid json\x7d"
    PyErr.jsonDecodeError (by decide) (by decide)).2 ["hello"]

/-- Claim C6 (counterexample): a call to `broadcast_chat` with
`exclude = ""` (the empty handle) writes the chat frame to the connection
(writer 7) of the session whose handle equals that `exclude` value: Python
truthiness skips the exclusion test for a falsy `exclude`, contradicting
"never produces a frame on X's connection" as universally stated. -/
theorem C6_counterexample :
    broadcastChat [("", 7)] "hi" 0 (some "") = [Ev.write 7 (chatFrame 0 "hi")] ∧
    Ev.write 7 (chatFrame 0 "hi") ∈ broadcastChat [("", 7)] "hi" 0 (some "") := by
  decide

/-- Claim C6 as amended: for every call to `broadcast_chat` with a
nonempty `exclude = x`, the emitted writes are exactly one chat frame per
linked session whose handle differs from `x`; in particular no frame is
written to `x`'s connection (for a writer owned by `x` alone). -/
theorem C6_exclude_nonempty_no_write (links : List (String × Nat))
    (msg : String) (chan : Int) (x : String) (hx : x ≠ "") :
    broadcastChat links msg chan (some x) =
      (links.filter (fun p => p.1 != x)).map
        (fun p => Ev.write p.2 (chatFrame chan msg)) ∧
    (∀ w : Nat, (x, w) ∈ links → (∀ q ∈ links, q.2 = w → q.1 = x) →
      ∀ d : String, Ev.write w d ∉ broadcastChat links msg chan (some x)) := by
  have heq : broadcastChat links msg chan (some x) =
      (links.filter (fun p => p.1 != x)).map
        (fun p => Ev.write p.2 (chatFrame chan msg)) := by
    induction links with
    | nil => rfl
    | cons p l ih =>
      by_cases hp : p.1 = x
      · simpa [broadcastChat, List.filter_cons, hx, hp] using ih
      · simpa [broadcastChat, List.filter_cons, hx, hp] using ih
  refine ⟨heq, fun w hmem hown d hw => ?_⟩
  rw [heq] at hw
  obtain ⟨q, hq, hqe⟩ := List.mem_map.1 hw
  have hqx : q.1 ≠ x := by
    have := List.of_mem_filter hq
    simpa using this
  have hqw : q.2 = w := by
    cases hqe
    rfl
  exact hqx (hown q (List.mem_of_mem_filter hq) hqw)

/-- Witness for C6 at a concrete nonempty exclusion. -/
theorem C6_witness :
    broadcastChat [("bob", 1), ("carol", 2)] "hi" 0 (some "bob") =
      ([(("bob" : String), 1), ("carol", 2)].filter (fun p => p.1 != "bob")).map
        (fun p => Ev.write p.2 (chatFrame 0 "hi")) :=
  (C6_exclude_nonempty_no_write [("bob", 1), ("carol", 2)] "hi" 0 "bob"
    (by decide)).1

end WBS
